import Mathlib

/-!
Verification of the filzl/mountaineer client-interface builder
(`src/filzl/client_interface/builder.py`), the database engine cache
(`src/mountaineer/database/dependencies/core.py`) and the dependencies
metaclass (`src/mountaineer/dependencies/base.py`).

Python text is modelled with Lean `String`; filesystem paths are lists of
path components; the mutable `GLOBAL_ENGINE` dict is explicit state.
-/

/-! ### String helpers from the `inflection` library

The builder uses `inflection.underscore` and `inflection.camelize`.
These are faithful embeddings of those library functions (two regex
substitution passes, a dash replacement and lowercasing for `underscore`;
removal of underscores with uppercasing of the following character for
`camelize`). -/

/-- Second half of `inflection.underscore`'s first regex pass
`([A-Z]+)([A-Z][a-z]) -> \1_\2`: an underscore is inserted before an
uppercase letter that follows an uppercase letter and is itself followed
by a lowercase letter. `prev` is the previous character of the input. -/
def underscorePass1Aux : Char → List Char → List Char
  | _, [] => []
  | _, [c] => [c]
  | prev, c1 :: c2 :: rest =>
    if prev.isUpper && c1.isUpper && c2.isLower then
      '_' :: c1 :: underscorePass1Aux c1 (c2 :: rest)
    else
      c1 :: underscorePass1Aux c1 (c2 :: rest)

def underscorePass1 : List Char → List Char
  | [] => []
  | c :: rest => c :: underscorePass1Aux c rest

/-- `inflection.underscore`'s second regex pass
`([a-z\d])([A-Z]) -> \1_\2`: an underscore is inserted between a
lowercase letter or digit and an uppercase letter. -/
def underscorePass2Aux : Char → List Char → List Char
  | _, [] => []
  | prev, c :: rest =>
    if (prev.isLower || prev.isDigit) && c.isUpper then
      '_' :: c :: underscorePass2Aux c rest
    else
      c :: underscorePass2Aux c rest

def underscorePass2 : List Char → List Char
  | [] => []
  | c :: rest => c :: underscorePass2Aux c rest

/-- `inflection.underscore`: the two regex passes, `-` replaced by `_`,
then lowercased. -/
def underscore (s : String) : String :=
  String.mk
    (((underscorePass2 (underscorePass1 s.data)).map
        (fun c => if c = '-' then '_' else c)).map Char.toLower)

/-- `inflection.camelize` body: each `_` followed by a character is
dropped and the character uppercased (a trailing lone `_` is kept). -/
def camelizeAux : List Char → List Char
  | [] => []
  | '_' :: c :: rest => c.toUpper :: camelizeAux rest
  | c :: rest => c :: camelizeAux rest

/-- `inflection.camelize` with `uppercase_first_letter=True`: the first
character is uppercased, and each underscore-letter pair is collapsed. -/
def camelize (s : String) : String :=
  match s.data with
  | [] => ""
  | c :: rest => String.mk (c.toUpper :: camelizeAux rest)

/-! ### Data model

`ControllerDefinition`/`Controller` as consumed by `ClientBuilder`:
the controller's class name, its render model's class name, its
`view_path` (a list of path components) and its action functions.
`FunctionActionType` and the action metadata are declared in
`filzl.actions` (not part of the source slice); they are modelled from
the spec's description of actions tagged `plain` or `sideeffect`. -/

/-- Modelled from the spec: `filzl.actions.fields.FunctionActionType`,
the tag distinguishing state-mutating (`sideeffect`) actions from plain
pass-through actions. -/
inductive FunctionActionType where
  | sideeffect
  | plain
  deriving DecidableEq, Repr

/-- Modelled from the spec: the per-action metadata exposed by
`controller._get_client_functions()` (a function name plus its
`plain`/`sideeffect` classification). -/
structure ActionMeta where
  functionName : String
  actionType : FunctionActionType
  deriving DecidableEq, Repr

/-- A mounted controller as seen by `ClientBuilder`: its class name
(`controller.__class__.__name__`), the class name of its render model
(`get_function_metadata(controller.render).get_render_model().__name__`),
its `view_path` as path components, and its client-facing actions. -/
structure Controller where
  className : String
  renderModelName : String
  viewPath : List String
  actions : List ActionMeta
  deriving DecidableEq, Repr

/-! ### Global state naming (`ClientBuilder`) -/

/-- Python `str.upper()` (character-wise uppercasing). -/
def strUpper (s : String) : String :=
  String.mk (s.data.map Char.toUpper)

/-- `ClientBuilder.get_controller_global_state`:
`underscore(controller.__class__.__name__).upper()`. -/
def getControllerGlobalState (c : Controller) : String :=
  strUpper (underscore c.className)

/-- `ClientBuilder.get_controller_render_global_type`: the upper-snake
global state key concatenated with `camelize` of the render model's
class name. -/
def getControllerRenderGlobalType (c : Controller) : String :=
  getControllerGlobalState c ++ camelize c.renderModelName

/-- `ClientBuilder.get_render_local_state`: `camelize` of the render
model's class name. -/
def getRenderLocalState (c : Controller) : String :=
  camelize c.renderModelName

/-- Python `sep.join(parts)`. -/
def pyJoin (sep : String) : List String → String
  | [] => ""
  | [x] => x
  | x :: xs => x ++ sep ++ pyJoin sep xs

/-! ### Server provider generation (`ClientBuilder.generate_server_provider`) -/

/-- One line of the generated `interface ServerState` body:
`f"{global_state}?: ControllerTypes.{render_global_type}"`. -/
def serverStateLine (c : Controller) : String :=
  getControllerGlobalState c ++ "?: ControllerTypes." ++ getControllerRenderGlobalType c

def serverStateLines (cs : List Controller) : List String :=
  cs.map serverStateLine

/-- The generated `interface ServerState { ... }` chunk: the lines, each
indented by two spaces, joined with `,\n`. -/
def serverStateInterface (cs : List Controller) : String :=
  "interface ServerState \x7b\n"
    ++ pyJoin (",\n") ((serverStateLines cs).map (fun l => "  " ++ l))
    ++ "\n\x7d"

/-- The two-controller scenario of C1: controller class `Home`, render
model class `RenderModel`, view `home/page.tsx`, no actions. -/
def homeController : Controller :=
  { className := "Home", renderModelName := "RenderModel",
    viewPath := ["home", "page.tsx"], actions := [] }

/-- The two-controller scenario of C1: controller class `Dashboard`,
render model class `RenderModel`, view `dashboard/page.tsx`, no actions. -/
def dashboardController : Controller :=
  { className := "Dashboard", renderModelName := "RenderModel",
    viewPath := ["dashboard", "page.tsx"], actions := [] }

/-! ### Pre-flight validation (`ClientBuilder.validate_unique_paths`)

`Path(view_path).parent` is `dropLast` on the component list.  The
`defaultdict(list)` grouping is modelled by an association list to which
each controller is appended under its parent key (Python dicts keep
insertion order and append preserves per-key order). -/

def parentOf (c : Controller) : List String :=
  c.viewPath.dropLast

/-- Append `c` to the group of key `p` (the `view_counts[parent].append(controller)`
step); a fresh key is added at the end, as in a Python `defaultdict`. -/
def addToGroups (acc : List (List String × List Controller)) (p : List String)
    (c : Controller) : List (List String × List Controller) :=
  match acc with
  | [] => [(p, [c])]
  | (q, g) :: rest =>
    if q = p then (q, g ++ [c]) :: rest else (q, g) :: addToGroups rest p c

/-- The `view_counts` mapping of `validate_unique_paths`. -/
def viewCounts (cs : List Controller) : List (List String × List Controller) :=
  cs.foldl (fun acc c => addToGroups acc (parentOf c) c) []

/-- `duplicate_views`: the groups with more than one controller. -/
def duplicateViews (cs : List Controller) : List (List String × List Controller) :=
  (viewCounts cs).filter (fun x => 1 < x.2.length)

/-- The entries enumerated in the duplicate-path `ValueError` message:
one `f"  {view}: {controller}"` line per controller per offending group. -/
def dupEntries (cs : List Controller) : List (List String × Controller) :=
  (duplicateViews cs).flatMap (fun x => x.2.map (fun c => (x.1, c)))

/-- The `ValueError`s raised by `validate_unique_paths`: either the
duplicate-view error carrying every enumerated `(view, controller)` pair,
or the missing-path error carrying the one path named in its message. -/
inductive ValidationError where
  | duplicateViewPaths (entries : List (List String × Controller))
  | missingPath (path : List String)
  deriving DecidableEq, Repr

/-- `ClientBuilder.validate_unique_paths`: first the duplicate check over
all groups, then the existence loop, which raises at the first controller
whose `view_path` does not exist.  `disk` tells which paths exist. -/
def validateUniquePaths (disk : List String → Bool) (cs : List Controller) :
    Except ValidationError Unit :=
  if (duplicateViews cs).isEmpty then
    match cs.find? (fun c => ! disk c.viewPath) with
    | some c => .error (.missingPath c.viewPath)
    | none => .ok ()
  else
    .error (.duplicateViewPaths (dupEntries cs))

/-- `ClientBuilder.build`: `validate_unique_paths` runs before any
generator, so a validation error means no output file is written.  The
generation stages that follow validation are abstracted as `gen`
(their list of written files). -/
def buildRun (disk : List String → Bool)
    (gen : List Controller → List (List String × String))
    (cs : List Controller) :
    Except ValidationError (List (List String × String)) :=
  match validateUniquePaths disk cs with
  | .error e => .error e
  | .ok _ => .ok (gen cs)

/-- The controllers of the registry whose parent view directory is `p`,
in registration order. -/
def groupFor (cs : List Controller) (p : List String) : List Controller :=
  cs.filter (fun c => parentOf c = p)

/-- Reading a key's group out of the association list (`view_counts[p]`,
with `[]` for an absent key). -/
def lookupGroup : List (List String × List Controller) → List String → List Controller
  | [], _ => []
  | (q, g) :: rest, p => if q = p then g else lookupGroup rest p

/-! ### Python dict assignment

`d[k] = v` on an insertion-ordered dict: an existing key keeps its
position (and its original key object) and gets the new value; a fresh
key is appended at the end. -/

def dictInsert {α : Type} (m : List (String × α)) (k : String) (v : α) :
    List (String × α) :=
  match m with
  | [] => [(k, v)]
  | (k0, v0) :: rest =>
    if k0 = k then (k0, v) :: rest else (k0, v0) :: dictInsert rest k v

/-! ### The global engine cache (`mountaineer/database/dependencies/core.py`)

`GLOBAL_ENGINE : dict[str, AsyncEngine]` is modelled as explicit state;
engines are identified by the order of their creation (`nextEngine` plays
`create_async_engine`, handing out fresh identities), and `dispose()`
calls are recorded in `disposed`. -/

structure DatabaseConfig where
  sqlalchemyDatabaseUri : Option String
  poolTypeIsNull : Bool
  deriving DecidableEq, Repr

structure EngineState where
  engines : List (String × Nat)
  nextEngine : Nat
  disposed : List Nat
  deriving DecidableEq, Repr

/-- Python truthiness of `not config.SQLALCHEMY_DATABASE_URI`: unset when
`None` or the empty string. -/
def uriUnset : Option String → Bool
  | none => true
  | some s => decide (s = "")

/-- `engine_from_config`: raises when the URI is unset; creates and
caches a fresh engine when `force_new` or the URI is not yet cached;
returns `GLOBAL_ENGINE[str(uri)]`. -/
def engineFromConfig (st : EngineState) (config : DatabaseConfig) (forceNew : Bool) :
    Except String (Nat × EngineState) :=
  if uriUnset config.sqlalchemyDatabaseUri then
    .error ("No SQLALCHEMY_DATABASE_URI set")
  else
    let u := config.sqlalchemyDatabaseUri.getD ""
    if forceNew || (st.engines.lookup u).isNone then
      let st' : EngineState :=
        { engines := dictInsert st.engines u st.nextEngine,
          nextEngine := st.nextEngine + 1,
          disposed := st.disposed }
      .ok ((st'.engines.lookup u).getD st.nextEngine, st')
    else
      .ok ((st.engines.lookup u).getD 0, st)

/-- `unregister_global_engine`: `dispose()` every cached engine, then
reset `GLOBAL_ENGINE` to the empty dict. -/
def unregisterGlobalEngine (st : EngineState) : EngineState :=
  { engines := [],
    nextEngine := st.nextEngine,
    disposed := st.disposed ++ st.engines.map Prod.snd }

/-! ### The dependencies metaclass (`mountaineer/dependencies/base.py`) -/

/-- Whether a namespace attribute's value `isinstance(_, staticmethod)`. -/
inductive AttrKind where
  | staticmethodAttr
  | plainAttr
  deriving DecidableEq, Repr

/-- The deprecation warning text emitted for every class whose name is
not `DependenciesBase`. -/
def deprecationMessage : String :=
  "DependenciesBase is deprecated and will be removed in a future version.\nImport modules to form dependencies. See mountaineer.dependencies.core for an example."

/-- The `TypeError` message, naming the class and the offending attribute. -/
def staticmethodErrorMessage (name attrName : String) : String :=
  "Static methods are not allowed in dependency wrapper '" ++ name
    ++ "'. Found static method: '" ++ attrName ++ "'."

/-- `DependenciesBaseMeta.__new__`: first the deprecation warning for any
class not named `DependenciesBase`, then a scan of the namespace that
raises `TypeError` at the first `staticmethod` attribute; otherwise the
class is created (`.ok ()`).  Returns the emitted warnings together with
the outcome. -/
def dependenciesBaseMetaNew (name : String)
    (namespaceItems : List (String × AttrKind)) :
    List String × Except String Unit :=
  let warns := if name = "DependenciesBase" then [] else [deprecationMessage]
  match namespaceItems.find? (fun a => a.2 == AttrKind.staticmethodAttr) with
  | some a => (warns, .error (staticmethodErrorMessage name a.1))
  | none => (warns, .ok ())

/-! ### useServer generation (`ClientBuilder.generate_view_servers`) -/

/-- The per-action wrapper line of the generated `useServer` hook: a
`sideeffect` action is composed with `applySideEffect(..., setControllerState)`,
any other action is a plain pass-through. -/
def actionWrapperLine (m : ActionMeta) : String :=
  if m.actionType = FunctionActionType.sideeffect then
    m.functionName ++ ": applySideEffect(" ++ m.functionName ++ ", setControllerState)"
  else
    m.functionName ++ ": " ++ m.functionName

/-- `f"{render_model_name}Optional"`. -/
def optionalModelName (c : Controller) : String :=
  c.renderModelName ++ "Optional"

/-- The Step-4 chunk of `generate_view_servers`: the `useServer` hook
with its `setControllerState` updater and the per-action wrappers. -/
def useServerHookChunk (c : Controller) : String :=
  "export const useServer = () => \x7b\n"
    ++ "const \x7b serverState, setServerState \x7d = useContext(ServerContext);\n"
    ++ "const setControllerState = (payload: " ++ optionalModelName c ++ ") => \x7b\n"
    ++ "setServerState((state) => (\x7b\n"
    ++ "...state,\n"
    ++ getControllerGlobalState c ++ ": state." ++ getControllerGlobalState c ++ " ? \x7b\n"
    ++ "...state." ++ getControllerGlobalState c ++ ",\n"
    ++ "...payload,\n"
    ++ "\x7d : undefined\n"
    ++ "\x7d))\n"
    ++ "\x7d;\n"
    ++ "return \x7b\n"
    ++ "...serverState['" ++ getControllerGlobalState c ++ "'],\n"
    ++ pyJoin (",\n") (c.actions.map actionWrapperLine)
    ++ "\x7d\n"
    ++ "\x7d;"

/-- Modelled from the spec: the denotation of the JS object spread
`\x7b...base, ...payload\x7d` — the fields of `base` in order with
`payload` values overriding, followed by the `payload`-only fields. -/
def jsSpreadMerge (base payload : List (String × String)) : List (String × String) :=
  (base.map (fun kv => (kv.1, (payload.lookup kv.1).getD kv.2)))
    ++ payload.filter (fun kv => (base.lookup kv.1).isNone)

/-- Modelled from the spec: the denotation of the updater emitted into
`useServer` (`setServerState((state) => (\x7b...state, KEY: state.KEY ?
\x7b...state.KEY, ...payload\x7d : undefined\x7d))`): the global state
maps state keys to an optional slice; only the controller's own key is
touched, and only when its slice is non-null. -/
def setControllerStateSem (key : String) (payload : List (String × String))
    (state : String → Option (List (String × String))) :
    String → Option (List (String × String)) :=
  fun k =>
    if k = key then (state key).map (fun s => jsSpreadMerge s payload) else state k

/-! ### Bundling and content hashing (`ClientBuilder.build_javascript_chunks`)

`bundle_javascript`, `get_cleaned_js_contents` and `update_source_map_path`
live in `filzl.client_interface.js_bundler`, outside the source slice,
and `md5` is the stdlib; they are modelled from the spec.  Script text is
a list of lines in which the embedded source-map reference comment is
distinguished. -/

/-- Modelled from the spec: a line of bundled script text; the embedded
source-map reference (the inherently non-reproducible part) is its own
constructor. -/
inductive JsLine where
  | codeLine (text : String)
  | sourceMapRef (target : String)
  deriving DecidableEq, Repr

/-- Modelled from the spec: `get_cleaned_js_contents` strips the embedded
source-map reference from the script text. -/
def getCleanedJsContents (contents : List JsLine) : List JsLine :=
  contents.filter (fun l => match l with | .sourceMapRef _ => false | _ => true)

/-- Modelled from the spec: `update_source_map_path` rewrites the
script's embedded source-map reference to point at `newMap`. -/
def updateSourceMapPath (contents : List JsLine) (newMap : String) : List JsLine :=
  getCleanedJsContents contents ++ [JsLine.sourceMapRef newMap]

/-- A lower-case hexadecimal digit. -/
def hexDigitChar : Nat → Char
  | 0 => '0' | 1 => '1' | 2 => '2' | 3 => '3' | 4 => '4'
  | 5 => '5' | 6 => '6' | 7 => '7' | 8 => '8' | 9 => '9'
  | 10 => 'a' | 11 => 'b' | 12 => 'c' | 13 => 'd' | 14 => 'e' | 15 => 'f'
  | _ => '0'

def hexValOfChar : Char → Nat
  | '0' => 0 | '1' => 1 | '2' => 2 | '3' => 3 | '4' => 4
  | '5' => 5 | '6' => 6 | '7' => 7 | '8' => 8 | '9' => 9
  | 'a' => 10 | 'b' => 11 | 'c' => 12 | 'd' => 13 | 'e' => 14 | 'f' => 15
  | _ => 0

/-- A character as six fixed-width hex digits (code points stay below
`16^6`). -/
def encCharHex (c : Char) : List Char :=
  [hexDigitChar (c.toNat / 1048576),
   hexDigitChar (c.toNat / 65536 % 16),
   hexDigitChar (c.toNat / 4096 % 16),
   hexDigitChar (c.toNat / 256 % 16),
   hexDigitChar (c.toNat / 16 % 16),
   hexDigitChar (c.toNat % 16)]

def encStrHex : List Char → List Char
  | [] => []
  | c :: rest => encCharHex c ++ encStrHex rest

/-- The digest input: each line tagged (`c`/`r`), its text hex-encoded,
terminated by `;`. -/
def digestChars : List JsLine → List Char
  | [] => []
  | .codeLine s :: rest => 'c' :: (encStrHex s.data ++ ';' :: digestChars rest)
  | .sourceMapRef s :: rest => 'r' :: (encStrHex s.data ++ ';' :: digestChars rest)

/-- Modelled from the spec: the md5 hex digest of the cleaned script
text.  The spec treats the content hash as a collision-free cache key
(`{slug}-{hash}.js` content addressing), so the model digest is an
injective hex encoding of the content. -/
def md5HexModel (ls : List JsLine) : String :=
  String.mk (digestChars ls)

def decodedChar (a b c d e f : Char) : Char :=
  Char.ofNat ((((((hexValOfChar a) * 16 + hexValOfChar b) * 16 + hexValOfChar c) * 16
    + hexValOfChar d) * 16 + hexValOfChar e) * 16 + hexValOfChar f)

/-- Decoder for `encStrHex s ++ ';' :: rest`: consumes six-digit blocks
up to the terminating `;` and returns the decoded characters and the
remainder (used only to prove the digest injective). -/
def decStrHex : List Char → Option (List Char × List Char)
  | [] => none
  | ch :: rest =>
    if ch = ';' then some ([], rest)
    else
      match rest with
      | b :: c :: d :: e :: f :: rest2 =>
        match decStrHex rest2 with
        | some (cs, r) => some (decodedChar ch b c d e f :: cs, r)
        | none => none
      | _ => none

/-- The files written by one `spawn_builder` unit: the content hash is
taken over the cleaned contents, the script filename is
`{underscore(class_name)}-{hash}.js`, the map filename pairs it, and the
written script has its source-map reference rewritten to the new map
name. -/
structure BuildArtifact where
  scriptName : String
  mapName : String
  scriptContents : List JsLine
  mapContents : String
  deriving DecidableEq, Repr

/-- The body of `spawn_builder` after `bundle_javascript` returned
`(contents, mapContents)`. -/
def spawnBuilderArtifact (c : Controller) (contents : List JsLine)
    (mapContents : String) : BuildArtifact :=
  let controllerBase := underscore c.className
  let contentHash := md5HexModel (getCleanedJsContents contents)
  let scriptName := controllerBase ++ "-" ++ contentHash ++ ".js"
  { scriptName := scriptName,
    mapName := scriptName ++ ".map",
    scriptContents := updateSourceMapPath contents (scriptName ++ ".map"),
    mapContents := mapContents }

/-- One `spawn_builder` thread: an exception raised by the bundler kills
only its own thread (Python's `Thread.join` does not re-raise it), so a
failing unit produces no artifact and no appended script name. -/
def spawnBuilderRun (bundler : Controller → Except String (List JsLine × String))
    (c : Controller) : Option BuildArtifact :=
  match bundler c with
  | .ok (contents, mapContents) => some (spawnBuilderArtifact c contents mapContents)
  | .error _ => none

/-- `build_javascript_chunks`: every per-controller unit is dispatched
and joined; because `Thread.join` swallows the target's exception, the
run always finishes normally, keeping only the successful units'
artifacts. -/
def buildJavascriptChunks (bundler : Controller → Except String (List JsLine × String))
    (cs : List Controller) : Except String (List BuildArtifact) :=
  .ok (cs.filterMap (spawnBuilderRun bundler))

/-! ### Model file generation (`ClientBuilder.generate_model_definitions`)

The `schemas` dict is filled first from the converted render model, then
from the schema components (`dictInsert` is Python dict assignment), and
the file is the declarations sorted by type name, joined with blank
lines.  Python's `sorted` is a stable sort by key, modelled with
`List.insertionSort` (stable). -/

def modelsFileSchemas (renderEntries componentEntries : List (String × String)) :
    List (String × String) :=
  (renderEntries ++ componentEntries).foldl (fun m kv => dictInsert m kv.1 kv.2) []

/-- `sorted(schemas.items(), key=lambda x: x[0])`. -/
def sortedSchemas (renderEntries componentEntries : List (String × String)) :
    List (String × String) :=
  (modelsFileSchemas renderEntries componentEntries).insertionSort
    (fun a b => a.1 ≤ b.1)

/-- The written `models.ts` content:
`"\n\n".join(schema for _, schema in sorted(schemas.items(), ...))`. -/
def generateModelsContent (renderEntries componentEntries : List (String × String)) :
    String :=
  pyJoin ("\n\n") ((sortedSchemas renderEntries componentEntries).map (fun kv => kv.2))

/-! ### Actions file generation (`ClientBuilder.generate_action_definitions`) -/

/-- Modelled from the spec: the result of
`OpenAPIToTypescriptActionConverter.convert(openapi_raw)` — one typed
callable stub per operation, plus the set of named types those stubs
reference. -/
structure ActionConverterOutput where
  outputSchemas : List (String × String)
  requiredTypes : List String
  deriving DecidableEq, Repr

/-- The Step-1 requirements chunk of the generated `actions.ts`: the
shared request helper and error base from the root `api.ts`, and the
converter's required types from the local `./models`. -/
def actionsImportChunk (requiredTypes : List String) (rootApiImportPath : String) : String :=
  "import \x7b __request, FetchErrorBase \x7d from '" ++ rootApiImportPath ++ "';\n"
    ++ "import type \x7b " ++ pyJoin (", ") requiredTypes ++ " \x7d from './models';"

/-- The written `actions.ts` content: the requirements chunk followed by
the stub bodies, joined with blank lines. -/
def generateActionsContent (conv : ActionConverterOutput) (rootApiImportPath : String) :
    String :=
  pyJoin ("\n\n")
    (actionsImportChunk conv.requiredTypes rootApiImportPath
      :: conv.outputSchemas.map (fun kv => kv.2))

/-- Splitting a `", "`-joined list back into its elements (used to state
that the emitted import list carries exactly the converter's required
types). -/
def splitCS : List Char → List Char → List (List Char)
  | [], acc => [acc.reverse]
  | [ch], acc => [(ch :: acc).reverse]
  | ch :: ch2 :: rest, acc =>
    if ch = ',' ∧ ch2 = ' ' then acc.reverse :: splitCS rest []
    else splitCS (ch2 :: rest) (ch :: acc)

def splitTypeList (s : String) : List String :=
  (splitCS s.data []).map String.mk

/-- C1: for the registry of exactly the controllers `Home` and `Dashboard`
(render models named `RenderModel`, no actions), the generated server-state
declaration has exactly two fields, `HOME` and `DASHBOARD`, both optional
and with distinct keys — but their types are the aliases
`HOMERenderModel` and `DASHBOARDRenderModel` (the prefix is
`underscore(class).upper()`), not the camel-case-prefixed
`HomeRenderModel`/`DashboardRenderModel` the claim (and the docstring of
`get_controller_render_global_type`) state. -/
theorem c1_server_state_evaluation :
    serverStateLines [homeController, dashboardController] =
      ["HOME?: ControllerTypes.HOMERenderModel",
       "DASHBOARD?: ControllerTypes.DASHBOARDRenderModel"]
    ∧ serverStateInterface [homeController, dashboardController] =
      "interface ServerState \x7b\n  HOME?: ControllerTypes.HOMERenderModel,\n  DASHBOARD?: ControllerTypes.DASHBOARDRenderModel\n\x7d"
    ∧ getControllerGlobalState homeController ≠ getControllerGlobalState dashboardController
    ∧ getControllerRenderGlobalType homeController ≠ "HomeRenderModel"
    ∧ getControllerRenderGlobalType dashboardController ≠ "DashboardRenderModel" := by
  refine ⟨by decide, by decide, by decide, by decide, by decide⟩

/-! ### C2 / C7: validation theorems -/

theorem lookupGroup_addToGroups (acc : List (List String × List Controller))
    (q p : List String) (c : Controller) :
    lookupGroup (addToGroups acc q c) p =
      if q = p then lookupGroup acc p ++ [c] else lookupGroup acc p := by
  induction acc with
  | nil =>
    simp only [addToGroups, lookupGroup]
    by_cases h : q = p <;> simp [h]
  | cons hd tl ih =>
    obtain ⟨q', g⟩ := hd
    by_cases h1 : q' = q
    · simp only [addToGroups, h1, if_pos rfl, lookupGroup]
      by_cases h2 : q = p <;> simp [h2]
    · simp only [addToGroups, if_neg h1, lookupGroup, ih]
      by_cases h2 : q' = p
      · have h3 : ¬ q = p := by
          rw [← h2]
          exact fun h => h1 h.symm
        simp [h2, h3]
      · simp [h2]

theorem lookupGroup_foldl (cs : List Controller) :
    ∀ acc p, lookupGroup (cs.foldl (fun acc c => addToGroups acc (parentOf c) c) acc) p
      = lookupGroup acc p ++ groupFor cs p := by
  induction cs with
  | nil => intro acc p; simp [groupFor]
  | cons c cs ih =>
    intro acc p
    simp only [List.foldl_cons, ih, groupFor, List.filter_cons]
    rw [lookupGroup_addToGroups]
    by_cases h : parentOf c = p <;> simp [h, groupFor]

theorem lookupGroup_viewCounts (cs : List Controller) (p : List String) :
    lookupGroup (viewCounts cs) p = groupFor cs p := by
  simpa [viewCounts, lookupGroup] using lookupGroup_foldl cs [] p

theorem lookupGroup_mem (acc : List (List String × List Controller)) (p : List String)
    (h : lookupGroup acc p ≠ []) : (p, lookupGroup acc p) ∈ acc := by
  induction acc with
  | nil => simp [lookupGroup] at h
  | cons hd tl ih =>
    obtain ⟨q, g⟩ := hd
    by_cases hq : q = p
    · subst hq
      simp [lookupGroup]
    · simp only [lookupGroup, if_neg hq] at h ⊢
      exact List.mem_cons_of_mem _ (ih h)

/-- C2: whenever some parent view directory `p` is shared by at least two
controllers of the registry, the build run fails with the duplicate-view
error before any output file is written (`buildRun` returns no file list),
and the error enumerates every controller of every offending group — in
particular every controller whose parent is `p`. -/
theorem c2_duplicate_paths_enumerated (disk : List String → Bool)
    (gen : List Controller → List (List String × String))
    (cs : List Controller) (p : List String)
    (h : 2 ≤ (groupFor cs p).length) :
    ∃ entries, buildRun disk gen cs = .error (.duplicateViewPaths entries)
      ∧ ∀ c ∈ cs, parentOf c = p → (p, c) ∈ entries := by
  have hg : lookupGroup (viewCounts cs) p = groupFor cs p := lookupGroup_viewCounts cs p
  have hne : groupFor cs p ≠ [] := by
    intro hnil
    rw [hnil] at h
    simp at h
  have hmem : (p, groupFor cs p) ∈ viewCounts cs := by
    have := lookupGroup_mem (viewCounts cs) p (by rw [hg]; exact hne)
    rwa [hg] at this
  have hdup : (p, groupFor cs p) ∈ duplicateViews cs := by
    refine List.mem_filter.mpr ⟨hmem, ?_⟩
    simp only [decide_eq_true_eq]
    omega
  have hdupne : duplicateViews cs ≠ [] := List.ne_nil_of_mem hdup
  have hempty : (duplicateViews cs).isEmpty = false := by
    cases hcase : duplicateViews cs with
    | nil => exact absurd hcase hdupne
    | cons a l => simp [List.isEmpty]
  refine ⟨dupEntries cs, ?_, ?_⟩
  · simp [buildRun, validateUniquePaths, hempty]
  · intro c hc hp
    have hcg : c ∈ groupFor cs p := by
      refine List.mem_filter.mpr ⟨hc, ?_⟩
      simp [hp]
    simp only [dupEntries, List.mem_flatMap]
    exact ⟨(p, groupFor cs p), hdup, List.mem_map.mpr ⟨c, hcg, rfl⟩⟩

/-- Witness for C2: two controllers whose views live in the same parent
directory `shared`. -/
theorem c2_duplicate_paths_enumerated_witness :
    2 ≤ (groupFor
        [{ className := "A", renderModelName := "RenderModel",
           viewPath := ["shared", "page.tsx"], actions := [] },
         { className := "B", renderModelName := "RenderModel",
           viewPath := ["shared", "other.tsx"], actions := [] }] ["shared"]).length
    ∧ ∃ entries,
        buildRun (fun _ => true) (fun _ => [])
          [{ className := "A", renderModelName := "RenderModel",
             viewPath := ["shared", "page.tsx"], actions := [] },
           { className := "B", renderModelName := "RenderModel",
             viewPath := ["shared", "other.tsx"], actions := [] }]
          = .error (.duplicateViewPaths entries)
        ∧ ∀ c ∈ [{ className := "A", renderModelName := "RenderModel",
                   viewPath := ["shared", "page.tsx"], actions := [] },
                 { className := "B", renderModelName := "RenderModel",
                   viewPath := ["shared", "other.tsx"], actions := [] }],
            parentOf c = ["shared"] → (["shared"], c) ∈ entries := by
  exact ⟨by decide, c2_duplicate_paths_enumerated (fun _ => true) (fun _ => []) _ _ (by decide)⟩

/-- C7 counterexample: two controllers whose view paths are both missing
(`disk` is empty).  The raised error is `missingPath ["a", "page.tsx"]`
only — the second missing path `["b", "page.tsx"]` is not reported, so
the error does not carry the full list of offending entries. -/
theorem c7_counterexample :
    buildRun (fun _ => false) (fun _ => [])
      [{ className := "A", renderModelName := "RenderModel",
         viewPath := ["a", "page.tsx"], actions := [] },
       { className := "B", renderModelName := "RenderModel",
         viewPath := ["b", "page.tsx"], actions := [] }]
      = .error (.missingPath ["a", "page.tsx"])
    ∧ (["a", "page.tsx"] : List String) ≠ ["b", "page.tsx"]
    ∧ (fun (_ : List String) => false) ["b", "page.tsx"] = false := by
  refine ⟨by rfl, by decide, rfl⟩

/-- C7 (amended): when one or more controllers have a `view_path` that
does not exist, the build run fails before any output file is written;
when there is no duplicate-path error, the raised error reports the first
missing path in registration order (not the full list). -/
theorem c7_missing_path_first_reported (disk : List String → Bool)
    (gen : List Controller → List (List String × String))
    (cs : List Controller) :
    (∀ c ∈ cs, disk c.viewPath = false → ∃ e, buildRun disk gen cs = .error e)
    ∧ (duplicateViews cs = [] →
        ∀ c, cs.find? (fun x => ! disk x.viewPath) = some c →
          buildRun disk gen cs = .error (.missingPath c.viewPath)) := by
  constructor
  · intro c hc hmiss
    unfold buildRun validateUniquePaths
    cases hdup : (duplicateViews cs).isEmpty
    · exact ⟨.duplicateViewPaths (dupEntries cs), rfl⟩
    · cases hfind : cs.find? (fun x => ! disk x.viewPath) with
      | none =>
        rw [List.find?_eq_none] at hfind
        have := hfind c hc
        rw [hmiss] at this
        simp at this
      | some c' => exact ⟨.missingPath c'.viewPath, rfl⟩
  · intro hdup c hfind
    unfold buildRun validateUniquePaths
    rw [hdup]
    simp only [List.isEmpty_nil, if_true, hfind]

/-- Witness for the amended C7: one controller with a missing view path;
the run fails with that path. -/
theorem c7_missing_path_first_reported_witness :
    buildRun (fun _ => false) (fun _ => [])
      [{ className := "A", renderModelName := "RenderModel",
         viewPath := ["a", "page.tsx"], actions := [] }]
      = .error (.missingPath ["a", "page.tsx"]) := by
  exact (c7_missing_path_first_reported (fun _ => false) (fun _ => [])
    [{ className := "A", renderModelName := "RenderModel",
       viewPath := ["a", "page.tsx"], actions := [] }]).2 (by decide)
    { className := "A", renderModelName := "RenderModel",
      viewPath := ["a", "page.tsx"], actions := [] } (by decide)

/-! ### C9: engine cache lifecycle -/

theorem dictInsert_lookup {α : Type} (m : List (String × α)) (k : String) (v : α) :
    (dictInsert m k v).lookup k = some v := by
  induction m with
  | nil => simp [dictInsert, List.lookup]
  | cons hd tl ih =>
    obtain ⟨k0, v0⟩ := hd
    by_cases h : k0 = k
    · simp [dictInsert, h, List.lookup]
    · simp only [dictInsert, if_neg h, List.lookup]
      have hbeq : (k == k0) = false := by
        simp only [beq_eq_false_iff_ne, ne_eq]
        exact fun he => h he.symm
      simp [hbeq, ih]

/-- C9: for a config whose connection URI is set, `engine_from_config`
creates an engine lazily on the first call for that URI and caches it
under the URI; every later call with the same URI (and `force_new` false)
returns the same cached engine and leaves the cache unchanged; a call
with an unset URI raises; `unregister_global_engine` disposes every
cached engine and empties the cache. -/
theorem c9_engine_cache_lifecycle (st : EngineState) (config : DatabaseConfig)
    (forceNew : Bool) :
    (uriUnset config.sqlalchemyDatabaseUri = true →
      engineFromConfig st config forceNew = .error ("No SQLALCHEMY_DATABASE_URI set"))
    ∧ (∀ u, config.sqlalchemyDatabaseUri = some u → u ≠ "" →
        st.engines.lookup u = none →
        engineFromConfig st config false =
          .ok (st.nextEngine,
            { engines := dictInsert st.engines u st.nextEngine,
              nextEngine := st.nextEngine + 1,
              disposed := st.disposed })
        ∧ (dictInsert st.engines u st.nextEngine).lookup u = some st.nextEngine)
    ∧ (∀ u e, config.sqlalchemyDatabaseUri = some u → u ≠ "" →
        st.engines.lookup u = some e →
        engineFromConfig st config false = .ok (e, st))
    ∧ ((unregisterGlobalEngine st).engines = []
        ∧ ∀ p ∈ st.engines, p.2 ∈ (unregisterGlobalEngine st).disposed) := by
  refine ⟨?_, ?_, ?_, ?_, ?_⟩
  · intro h
    simp [engineFromConfig, h]
  · intro u hu hne hlook
    have hunset : uriUnset (some u) = false := by
      simpa [uriUnset] using hne
    refine ⟨?_, dictInsert_lookup st.engines u st.nextEngine⟩
    simp [engineFromConfig, hu, hunset, hlook, dictInsert_lookup]
  · intro u e hu hne hlook
    have hunset : uriUnset (some u) = false := by
      simpa [uriUnset] using hne
    simp [engineFromConfig, hu, hunset, hlook]
  · simp [unregisterGlobalEngine]
  · intro p hp
    simp only [unregisterGlobalEngine, List.mem_append]
    exact Or.inr (List.mem_map_of_mem _ hp)

/-- Witness for C9: a fresh cache; the first call for
`postgresql://db` creates engine `0`, the second call returns the same
engine `0` with an unchanged cache, an unset URI errors, and shutdown
empties the cache after disposing engine `0`. -/
theorem c9_engine_cache_lifecycle_witness :
    engineFromConfig ⟨[], 0, []⟩ ⟨some "postgresql://db", false⟩ false =
      .ok (0, ⟨[("postgresql://db", 0)], 1, []⟩)
    ∧ engineFromConfig ⟨[("postgresql://db", 0)], 1, []⟩ ⟨some "postgresql://db", false⟩ false =
      .ok (0, ⟨[("postgresql://db", 0)], 1, []⟩)
    ∧ engineFromConfig ⟨[("postgresql://db", 0)], 1, []⟩ ⟨none, false⟩ false =
      .error ("No SQLALCHEMY_DATABASE_URI set")
    ∧ (unregisterGlobalEngine ⟨[("postgresql://db", 0)], 1, []⟩).engines = []
    ∧ (0 : Nat) ∈ (unregisterGlobalEngine ⟨[("postgresql://db", 0)], 1, []⟩).disposed := by
  refine ⟨?_, ?_, ?_, ?_, ?_⟩
  · exact ((c9_engine_cache_lifecycle ⟨[], 0, []⟩ ⟨some "postgresql://db", false⟩ false).2.1
      "postgresql://db" rfl (by decide) (by decide)).1
  · exact (c9_engine_cache_lifecycle ⟨[("postgresql://db", 0)], 1, []⟩
      ⟨some "postgresql://db", false⟩ false).2.2.1 "postgresql://db" 0 rfl (by decide) (by decide)
  · exact (c9_engine_cache_lifecycle ⟨[("postgresql://db", 0)], 1, []⟩ ⟨none, false⟩ false).1 rfl
  · exact (c9_engine_cache_lifecycle ⟨[("postgresql://db", 0)], 1, []⟩ ⟨none, false⟩ false).2.2.2.1
  · exact (c9_engine_cache_lifecycle ⟨[("postgresql://db", 0)], 1, []⟩ ⟨none, false⟩ false).2.2.2.2
      ("postgresql://db", 0) (by decide)

/-! ### C10: the dependencies metaclass -/

/-- C10: creating a class under `DependenciesBaseMeta` whose namespace
contains a `staticmethod` raises a `TypeError` naming the class and the
offending attribute (and the class is not created); a namespace free of
`staticmethod`s yields a created class; and every class not named
`DependenciesBase` gets the deprecation warning (the base class none). -/
theorem c10_metaclass_staticmethod_rejection (name : String)
    (ns : List (String × AttrKind)) :
    ((∃ x ∈ ns, x.2 = AttrKind.staticmethodAttr) →
      ∃ a, a ∈ ns ∧ a.2 = AttrKind.staticmethodAttr ∧
        (dependenciesBaseMetaNew name ns).2 = .error (staticmethodErrorMessage name a.1))
    ∧ ((∀ x ∈ ns, x.2 ≠ AttrKind.staticmethodAttr) →
        (dependenciesBaseMetaNew name ns).2 = .ok ())
    ∧ (dependenciesBaseMetaNew name ns).1 =
        (if name = "DependenciesBase" then [] else [deprecationMessage]) := by
  refine ⟨?_, ?_, ?_⟩
  · intro hex
    cases hfind : ns.find? (fun a => a.2 == AttrKind.staticmethodAttr) with
    | none =>
      rw [List.find?_eq_none] at hfind
      obtain ⟨x, hx, hstatic⟩ := hex
      have := hfind x hx
      rw [hstatic] at this
      simp at this
    | some a =>
      refine ⟨a, List.mem_of_find?_eq_some hfind, ?_, ?_⟩
      · have := List.find?_some hfind
        simpa using this
      · simp [dependenciesBaseMetaNew, hfind]
  · intro hall
    have hfind : ns.find? (fun a => a.2 == AttrKind.staticmethodAttr) = none := by
      rw [List.find?_eq_none]
      intro x hx
      simpa using hall x hx
    simp [dependenciesBaseMetaNew, hfind]
  · cases hfind : ns.find? (fun a => a.2 == AttrKind.staticmethodAttr) <;>
      simp [dependenciesBaseMetaNew, hfind]

/-- Witness for C10: a class `MyDeps` with a `staticmethod` attribute
`bad` is rejected with the message naming both; a class `OtherDeps`
without one is created and receives the deprecation warning. -/
theorem c10_metaclass_staticmethod_rejection_witness :
    (dependenciesBaseMetaNew "MyDeps"
        [("helper", AttrKind.plainAttr), ("bad", AttrKind.staticmethodAttr)]).2 =
      .error (staticmethodErrorMessage "MyDeps" "bad")
    ∧ (dependenciesBaseMetaNew "OtherDeps" [("helper", AttrKind.plainAttr)]).2 = .ok ()
    ∧ (dependenciesBaseMetaNew "OtherDeps" [("helper", AttrKind.plainAttr)]).1 =
        [deprecationMessage] := by
  refine ⟨?_, ?_, ?_⟩
  · obtain ⟨a, ha, hstatic, herr⟩ :=
      (c10_metaclass_staticmethod_rejection "MyDeps"
        [("helper", AttrKind.plainAttr), ("bad", AttrKind.staticmethodAttr)]).1
        ⟨("bad", AttrKind.staticmethodAttr), by decide, rfl⟩
    have : a = ("bad", AttrKind.staticmethodAttr) := by
      rcases List.mem_cons.mp ha with h | h
      · rw [h] at hstatic
        simp at hstatic
      · simpa using h
    rw [this] at herr
    exact herr
  · exact (c10_metaclass_staticmethod_rejection "OtherDeps"
      [("helper", AttrKind.plainAttr)]).2.1 (by decide)
  · have := (c10_metaclass_staticmethod_rejection "OtherDeps"
      [("helper", AttrKind.plainAttr)]).2.2
    simpa using this

/-! ### C3: merge safety of the useServer updater -/

theorem lookup_merge_base (base payload : List (String × String)) (k : String) :
    List.lookup k (base.map (fun kv => (kv.1, (payload.lookup kv.1).getD kv.2)))
      = (List.lookup k base).map (fun v => (payload.lookup k).getD v) := by
  induction base with
  | nil => simp
  | cons hd tl ih =>
    obtain ⟨k0, v0⟩ := hd
    by_cases h : k = k0
    · subst h
      simp [List.lookup]
    · have hbeq : ((k : String) == k0) = false := by simpa using h
      simp [List.lookup, hbeq, ih]

theorem lookup_append_split (l1 l2 : List (String × String)) (k : String) :
    List.lookup k (l1 ++ l2) =
      match List.lookup k l1 with
      | some v => some v
      | none => List.lookup k l2 := by
  induction l1 with
  | nil => simp
  | cons hd tl ih =>
    obtain ⟨k0, v0⟩ := hd
    by_cases h : k = k0
    · subst h
      simp [List.lookup]
    · have hbeq : ((k : String) == k0) = false := by simpa using h
      simp [List.lookup, hbeq, ih]

theorem lookup_filter_outside (payload base : List (String × String)) (k : String)
    (h : List.lookup k base = none) :
    List.lookup k (payload.filter (fun kv => (List.lookup kv.1 base).isNone))
      = List.lookup k payload := by
  induction payload with
  | nil => simp
  | cons hd tl ih =>
    obtain ⟨k1, w1⟩ := hd
    by_cases hk : k = k1
    · subst hk
      have hcond : (List.lookup k base).isNone = true := by simp [h]
      simp [List.filter_cons, hcond, List.lookup]
    · have hbeq : ((k : String) == k1) = false := by simpa using hk
      by_cases hcond : (List.lookup k1 base).isNone
      · simp [List.filter_cons, hcond, List.lookup, hbeq, ih]
      · simp [List.filter_cons, hcond, List.lookup, hbeq, ih]

theorem jsSpreadMerge_lookup (base payload : List (String × String)) (k : String) :
    List.lookup k (jsSpreadMerge base payload) =
      match List.lookup k payload with
      | some v => some v
      | none => List.lookup k base := by
  unfold jsSpreadMerge
  rw [lookup_append_split, lookup_merge_base]
  cases hb : List.lookup k base with
  | some w =>
    cases hp : List.lookup k payload <;> simp [hp]
  | none =>
    rw [lookup_filter_outside payload base k hb]
    cases hp : List.lookup k payload <;> simp [hp]

/-- C3: the updater emitted into every generated `useServer` hook is a
no-op on the controller's slice when that slice is null (the slice stays
null, and every other slice is untouched); when the slice is non-null the
action's partial result is shallow-merged into it (field-wise, payload
fields override) and every other slice is untouched; a `sideeffect`
action's wrapper line composes the action with
`applySideEffect(..., setControllerState)`, and any other action's
wrapper line is a plain pass-through. -/
theorem c3_sideeffect_merge_safety (c : Controller) (payload : List (String × String))
    (state : String → Option (List (String × String))) :
    (state (getControllerGlobalState c) = none →
      ∀ k, setControllerStateSem (getControllerGlobalState c) payload state k = state k)
    ∧ (∀ s, state (getControllerGlobalState c) = some s →
        setControllerStateSem (getControllerGlobalState c) payload state
            (getControllerGlobalState c) = some (jsSpreadMerge s payload)
          ∧ ∀ k, k ≠ getControllerGlobalState c →
              setControllerStateSem (getControllerGlobalState c) payload state k = state k)
    ∧ (∀ s k, List.lookup k (jsSpreadMerge s payload) =
        match List.lookup k payload with
        | some v => some v
        | none => List.lookup k s)
    ∧ (∀ m ∈ c.actions, m.actionType = FunctionActionType.sideeffect →
        actionWrapperLine m =
          m.functionName ++ ": applySideEffect(" ++ m.functionName ++ ", setControllerState)")
    ∧ (∀ m ∈ c.actions, m.actionType ≠ FunctionActionType.sideeffect →
        actionWrapperLine m = m.functionName ++ ": " ++ m.functionName) := by
  refine ⟨?_, ?_, ?_, ?_, ?_⟩
  · intro h k
    unfold setControllerStateSem
    by_cases hk : k = getControllerGlobalState c
    · simp [hk, h]
    · simp [hk]
  · intro s h
    constructor
    · simp [setControllerStateSem, h]
    · intro k hk
      simp [setControllerStateSem, hk]
  · intro s k
    exact jsSpreadMerge_lookup s payload k
  · intro m _ hm
    simp [actionWrapperLine, hm]
  · intro m _ hm
    simp [actionWrapperLine, hm]

/-- Witness for C3: a `Counter` controller with a `sideeffect` action
`increment` and a plain action `fetchData`; with the `COUNTER` slice
null the updater leaves the state untouched, with it populated the
partial payload `count := 5` is shallow-merged. -/
theorem c3_sideeffect_merge_safety_witness :
    setControllerStateSem "COUNTER" [("count", "5")] (fun _ => none) "COUNTER" = none
    ∧ setControllerStateSem "COUNTER" [("count", "5")]
        (fun k => if k = "COUNTER" then some [("count", "1"), ("title", "t")] else none)
        "COUNTER" = some [("count", "5"), ("title", "t")]
    ∧ actionWrapperLine ⟨"increment", FunctionActionType.sideeffect⟩ =
        "increment: applySideEffect(increment, setControllerState)"
    ∧ actionWrapperLine ⟨"fetchData", FunctionActionType.plain⟩ = "fetchData: fetchData" := by
  refine ⟨?_, ?_, ?_, ?_⟩
  · have h := (c3_sideeffect_merge_safety
      { className := "Counter", renderModelName := "RenderModel",
        viewPath := ["counter", "page.tsx"],
        actions := [⟨"increment", FunctionActionType.sideeffect⟩,
                    ⟨"fetchData", FunctionActionType.plain⟩] }
      [("count", "5")] (fun _ => none)).1 rfl "COUNTER"
    exact h
  · have h := ((c3_sideeffect_merge_safety
      { className := "Counter", renderModelName := "RenderModel",
        viewPath := ["counter", "page.tsx"],
        actions := [⟨"increment", FunctionActionType.sideeffect⟩,
                    ⟨"fetchData", FunctionActionType.plain⟩] }
      [("count", "5")]
      (fun k => if k = "COUNTER" then some [("count", "1"), ("title", "t")] else none)).2.1
      [("count", "1"), ("title", "t")] (by decide)).1
    exact h.trans (by decide)
  · exact (c3_sideeffect_merge_safety
      { className := "Counter", renderModelName := "RenderModel",
        viewPath := ["counter", "page.tsx"],
        actions := [⟨"increment", FunctionActionType.sideeffect⟩,
                    ⟨"fetchData", FunctionActionType.plain⟩] }
      [("count", "5")] (fun _ => none)).2.2.2.1
      ⟨"increment", FunctionActionType.sideeffect⟩ (by decide) rfl
  · exact (c3_sideeffect_merge_safety
      { className := "Counter", renderModelName := "RenderModel",
        viewPath := ["counter", "page.tsx"],
        actions := [⟨"increment", FunctionActionType.sideeffect⟩,
                    ⟨"fetchData", FunctionActionType.plain⟩] }
      [("count", "5")] (fun _ => none)).2.2.2.2
      ⟨"fetchData", FunctionActionType.plain⟩ (by decide) (by decide)

/-! ### C5: the concurrent build join -/

/-- C5 counterexample: the bundler fails for controller `A` and succeeds
for controller `B`, yet `build_javascript_chunks` completes successfully,
returning only `B`'s artifact — a bundler failure is not fatal to the
run (the thread's exception is swallowed by `Thread.join`), so partial
success is reported as success, contrary to the claim. -/
theorem c5_counterexample :
    buildJavascriptChunks
      (fun c => if c.className = "A" then .error "esbuild failed"
        else .ok ([JsLine.codeLine "console.log(1)"], "sourcemap"))
      [{ className := "A", renderModelName := "RenderModel",
         viewPath := ["a", "page.tsx"], actions := [] },
       { className := "B", renderModelName := "RenderModel",
         viewPath := ["b", "page.tsx"], actions := [] }]
      = .ok [spawnBuilderArtifact
          { className := "B", renderModelName := "RenderModel",
            viewPath := ["b", "page.tsx"], actions := [] }
          [JsLine.codeLine "console.log(1)"] "sourcemap"]
    ∧ (fun (c : Controller) => if c.className = "A" then .error "esbuild failed"
        else .ok ([JsLine.codeLine "console.log(1)"], "sourcemap"))
        { className := "A", renderModelName := "RenderModel",
          viewPath := ["a", "page.tsx"], actions := [] }
      = (.error "esbuild failed" : Except String (List JsLine × String)) := by
  exact ⟨rfl, rfl⟩

/-- C5 (amended): the run joins every dispatched unit — it finishes with
exactly the artifacts of the units whose bundler succeeded — but it
always reports success: a unit whose bundler raises yields no artifact
and is silently omitted instead of failing the run. -/
theorem c5_join_swallows_failures
    (bundler : Controller → Except String (List JsLine × String))
    (cs : List Controller) :
    (∃ arts, buildJavascriptChunks bundler cs = .ok arts
      ∧ ∀ a, a ∈ arts ↔ ∃ c ∈ cs, spawnBuilderRun bundler c = some a)
    ∧ (∀ c e, bundler c = .error e → spawnBuilderRun bundler c = none)
    ∧ (∀ c contents mapContents, bundler c = .ok (contents, mapContents) →
        spawnBuilderRun bundler c = some (spawnBuilderArtifact c contents mapContents)) := by
  refine ⟨⟨cs.filterMap (spawnBuilderRun bundler), rfl, ?_⟩, ?_, ?_⟩
  · intro a
    simp [List.mem_filterMap]
  · intro c e h
    simp [spawnBuilderRun, h]
  · intro c contents mapContents h
    simp [spawnBuilderRun, h]

/-- Witness for the amended C5: the failing unit `A` yields no artifact,
the successful unit `B` yields its artifact. -/
theorem c5_join_swallows_failures_witness :
    spawnBuilderRun
      (fun c => if c.className = "A" then .error "esbuild failed"
        else .ok ([JsLine.codeLine "console.log(1)"], "sourcemap"))
      { className := "A", renderModelName := "RenderModel",
        viewPath := ["a", "page.tsx"], actions := [] } = none
    ∧ spawnBuilderRun
      (fun c => if c.className = "A" then .error "esbuild failed"
        else .ok ([JsLine.codeLine "console.log(1)"], "sourcemap"))
      { className := "B", renderModelName := "RenderModel",
        viewPath := ["b", "page.tsx"], actions := [] }
      = some (spawnBuilderArtifact
          { className := "B", renderModelName := "RenderModel",
            viewPath := ["b", "page.tsx"], actions := [] }
          [JsLine.codeLine "console.log(1)"] "sourcemap") := by
  constructor
  · exact (c5_join_swallows_failures
      (fun c => if c.className = "A" then .error "esbuild failed"
        else .ok ([JsLine.codeLine "console.log(1)"], "sourcemap")) []).2.1
      { className := "A", renderModelName := "RenderModel",
        viewPath := ["a", "page.tsx"], actions := [] } "esbuild failed" rfl
  · exact (c5_join_swallows_failures
      (fun c => if c.className = "A" then .error "esbuild failed"
        else .ok ([JsLine.codeLine "console.log(1)"], "sourcemap")) []).2.2
      { className := "B", renderModelName := "RenderModel",
        viewPath := ["b", "page.tsx"], actions := [] }
      [JsLine.codeLine "console.log(1)"] "sourcemap" rfl

/-! ### C6: sorted, deterministic model files -/

theorem dictInsert_notMem {α : Type} (m : List (String × α)) (k : String) (v : α)
    (h : k ∉ m.map Prod.fst) : dictInsert m k v = m ++ [(k, v)] := by
  induction m with
  | nil => rfl
  | cons hd tl ih =>
    obtain ⟨k0, v0⟩ := hd
    simp only [List.map_cons, List.mem_cons] at h
    push_neg at h
    obtain ⟨h1, h2⟩ := h
    simp only [dictInsert]
    rw [if_neg (fun he => h1 he.symm)]
    simp [ih h2]

theorem foldl_dictInsert_eq (entries : List (String × String)) :
    ∀ acc : List (String × String),
      (((acc ++ entries).map Prod.fst).Nodup) →
      entries.foldl (fun m kv => dictInsert m kv.1 kv.2) acc = acc ++ entries := by
  induction entries with
  | nil =>
    intro acc _
    simp
  | cons kv es ih =>
    intro acc h
    obtain ⟨k, v⟩ := kv
    have hk : k ∉ acc.map Prod.fst := by
      rw [List.map_append] at h
      have hd := (List.nodup_append.mp h).2.2
      intro hmem
      exact hd hmem (by simp)
    simp only [List.foldl_cons]
    rw [dictInsert_notMem acc k v hk]
    have h' : (((acc ++ [(k, v)]) ++ es).map Prod.fst).Nodup := by
      simpa [List.append_assoc] using h
    rw [ih (acc ++ [(k, v)]) h']
    simp

theorem modelsFileSchemas_eq (renderEntries componentEntries : List (String × String))
    (h : (((renderEntries ++ componentEntries)).map Prod.fst).Nodup) :
    modelsFileSchemas renderEntries componentEntries = renderEntries ++ componentEntries := by
  unfold modelsFileSchemas
  simpa using foldl_dictInsert_eq (renderEntries ++ componentEntries) [] (by simpa using h)

theorem insertionSort_key_eq_of_perm (l1 l2 : List (String × String))
    (hnd : (l1.map Prod.fst).Nodup) (hperm : l1.Perm l2) :
    l1.insertionSort (fun a b => a.1 ≤ b.1) = l2.insertionSort (fun a b => a.1 ≤ b.1) := by
  haveI htotal : IsTotal (String × String) (fun a b => a.1 ≤ b.1) :=
    ⟨fun a b => le_total a.1 b.1⟩
  haveI htrans : IsTrans (String × String) (fun a b => a.1 ≤ b.1) :=
    ⟨fun _ _ _ hab hbc => le_trans hab hbc⟩
  haveI hanti : IsAntisymm (String × String) (fun a b : String × String => a.1 < b.1) :=
    ⟨fun a b h1 h2 => absurd (lt_trans h1 h2) (lt_irrefl _)⟩
  have p1 := List.perm_insertionSort (fun a b : String × String => a.1 ≤ b.1) l1
  have p2 := List.perm_insertionSort (fun a b : String × String => a.1 ≤ b.1) l2
  have pall := p1.trans (hperm.trans p2.symm)
  have s1 := List.sorted_insertionSort (fun a b : String × String => a.1 ≤ b.1) l1
  have s2 := List.sorted_insertionSort (fun a b : String × String => a.1 ≤ b.1) l2
  have hnd1 : ((l1.insertionSort (fun a b => a.1 ≤ b.1)).map Prod.fst).Nodup :=
    ((p1.map Prod.fst).nodup_iff).mpr hnd
  have hnd2 : ((l2.insertionSort (fun a b => a.1 ≤ b.1)).map Prod.fst).Nodup := by
    refine ((p2.map Prod.fst).nodup_iff).mpr ?_
    exact ((hperm.map Prod.fst).nodup_iff).mp hnd
  have hne1 : List.Pairwise (fun a b : String × String => a.1 ≠ b.1)
      (l1.insertionSort (fun a b => a.1 ≤ b.1)) := List.pairwise_map.mp hnd1
  have hne2 : List.Pairwise (fun a b : String × String => a.1 ≠ b.1)
      (l2.insertionSort (fun a b => a.1 ≤ b.1)) := List.pairwise_map.mp hnd2
  have strict1 : List.Sorted (fun a b : String × String => a.1 < b.1)
      (l1.insertionSort (fun a b => a.1 ≤ b.1)) :=
    s1.imp₂ (fun _ _ hle hne => lt_of_le_of_ne hle hne) hne1
  have strict2 : List.Sorted (fun a b : String × String => a.1 < b.1)
      (l2.insertionSort (fun a b => a.1 ≤ b.1)) :=
    s2.imp₂ (fun _ _ hle hne => lt_of_le_of_ne hle hne) hne2
  exact List.eq_of_perm_of_sorted pall strict1 strict2

/-- C6: with distinct type names, the `schemas` dict holds exactly the
render-model declarations followed by the schema-component declarations;
the written file lists them sorted lexicographically by type name,
contains every declaration, and is invariant under re-enumeration order
of the component map — so an unchanged registry produces byte-identical
model files across runs. -/
theorem c6_models_sorted_deterministic
    (renderEntries componentEntries componentEntries' : List (String × String))
    (hnd : (((renderEntries ++ componentEntries)).map Prod.fst).Nodup)
    (hperm : componentEntries.Perm componentEntries') :
    modelsFileSchemas renderEntries componentEntries = renderEntries ++ componentEntries
    ∧ List.Pairwise (fun a b : String × String => a.1 ≤ b.1)
        (sortedSchemas renderEntries componentEntries)
    ∧ (∀ kv ∈ renderEntries ++ componentEntries,
        kv ∈ sortedSchemas renderEntries componentEntries)
    ∧ generateModelsContent renderEntries componentEntries'
        = generateModelsContent renderEntries componentEntries := by
  haveI htotal : IsTotal (String × String) (fun a b => a.1 ≤ b.1) :=
    ⟨fun a b => le_total a.1 b.1⟩
  haveI htrans : IsTrans (String × String) (fun a b => a.1 ≤ b.1) :=
    ⟨fun _ _ _ hab hbc => le_trans hab hbc⟩
  have hschemas := modelsFileSchemas_eq renderEntries componentEntries hnd
  have hperm2 : (renderEntries ++ componentEntries).Perm (renderEntries ++ componentEntries') :=
    List.Perm.append_left renderEntries hperm
  have hnd' : (((renderEntries ++ componentEntries')).map Prod.fst).Nodup :=
    ((hperm2.map Prod.fst).nodup_iff).mp hnd
  have hschemas' := modelsFileSchemas_eq renderEntries componentEntries' hnd'
  refine ⟨hschemas, ?_, ?_, ?_⟩
  · unfold sortedSchemas
    exact List.sorted_insertionSort (fun a b : String × String => a.1 ≤ b.1) _
  · intro kv hkv
    unfold sortedSchemas
    rw [hschemas]
    exact (List.perm_insertionSort (fun a b : String × String => a.1 ≤ b.1) _).mem_iff.mpr hkv
  · unfold generateModelsContent sortedSchemas
    rw [hschemas, hschemas']
    rw [insertionSort_key_eq_of_perm _ _ hnd' hperm2.symm]

/-- Witness for C6: one render declaration and two component
declarations whose dict-enumeration order differs between runs; the
emitted file is identical and sorted. -/
theorem c6_models_sorted_deterministic_witness :
    modelsFileSchemas [("RenderModel", "interface RenderModel")]
        [("Beta", "interface Beta"), ("Alpha", "interface Alpha")]
      = [("RenderModel", "interface RenderModel"),
         ("Beta", "interface Beta"), ("Alpha", "interface Alpha")]
    ∧ List.Pairwise (fun a b : String × String => a.1 ≤ b.1)
        (sortedSchemas [("RenderModel", "interface RenderModel")]
          [("Beta", "interface Beta"), ("Alpha", "interface Alpha")])
    ∧ (∀ kv ∈ [("RenderModel", "interface RenderModel"),
               ("Beta", "interface Beta"), ("Alpha", "interface Alpha")],
        kv ∈ sortedSchemas [("RenderModel", "interface RenderModel")]
          [("Beta", "interface Beta"), ("Alpha", "interface Alpha")])
    ∧ generateModelsContent [("RenderModel", "interface RenderModel")]
        [("Alpha", "interface Alpha"), ("Beta", "interface Beta")]
      = generateModelsContent [("RenderModel", "interface RenderModel")]
        [("Beta", "interface Beta"), ("Alpha", "interface Alpha")] := by
  exact c6_models_sorted_deterministic
    [("RenderModel", "interface RenderModel")]
    [("Beta", "interface Beta"), ("Alpha", "interface Alpha")]
    [("Alpha", "interface Alpha"), ("Beta", "interface Beta")]
    (by decide) (by decide)

/-! ### C8: exact action imports -/

theorem strMk_data (s : String) : String.mk s.data = s := rfl

theorem strData_append (a b : String) : (a ++ b).data = a.data ++ b.data := rfl

theorem strAppend_empty (s : String) : s ++ "" = s := by
  obtain ⟨l⟩ := s
  exact congrArg String.mk (List.append_nil l)

theorem strAppend_assoc (a b c : String) : (a ++ b) ++ c = a ++ (b ++ c) := by
  obtain ⟨la⟩ := a
  obtain ⟨lb⟩ := b
  obtain ⟨lc⟩ := c
  exact congrArg String.mk (List.append_assoc la lb lc)

theorem splitCS_no_comma : ∀ (s : List Char) (acc : List Char), ',' ∉ s →
    splitCS s acc = [acc.reverse ++ s] := by
  intro s
  induction s with
  | nil =>
    intro acc _
    simp [splitCS]
  | cons ch rest ih =>
    intro acc hc
    have hch : ¬ (ch = ',') := fun he => hc (by simp [he])
    have hrest : ',' ∉ rest := fun hm => hc (List.mem_cons_of_mem _ hm)
    cases rest with
    | nil =>
      simp [splitCS]
    | cons ch2 rest2 =>
      have hcond : ¬ (ch = ',' ∧ ch2 = ' ') := fun hand => hch hand.1
      simp only [splitCS, if_neg hcond]
      rw [ih (ch :: acc) hrest]
      simp

theorem splitCS_append (t : List Char) : ∀ (s : List Char) (acc : List Char), ',' ∉ s →
    splitCS (s ++ ',' :: ' ' :: t) acc = (acc.reverse ++ s) :: splitCS t [] := by
  intro s
  induction s with
  | nil =>
    intro acc _
    simp [splitCS]
  | cons ch rest ih =>
    intro acc hc
    have hch : ¬ (ch = ',') := fun he => hc (by simp [he])
    have hrest : ',' ∉ rest := fun hm => hc (List.mem_cons_of_mem _ hm)
    cases rest with
    | nil =>
      have hcond : ¬ (ch = ',' ∧ (',' : Char) = ' ') := fun hand => hch hand.1
      simp only [List.cons_append, List.nil_append, splitCS, if_neg hcond]
      simp [splitCS]
    | cons ch2 rest2 =>
      have hcond : ¬ (ch = ',' ∧ ch2 = ' ') := fun hand => hch hand.1
      simp only [List.cons_append, splitCS, if_neg hcond, List.append_eq]
      exact (ih (ch :: acc) hrest).trans (by simp)

theorem splitTypeList_pyJoin : ∀ (l : List String), l ≠ [] → (∀ t ∈ l, ',' ∉ t.data) →
    splitTypeList (pyJoin (", ") l) = l := by
  intro l
  induction l with
  | nil =>
    intro h _
    contradiction
  | cons x xs ih =>
    intro _ hcf
    cases xs with
    | nil =>
      simp only [pyJoin, splitTypeList]
      rw [splitCS_no_comma x.data [] (hcf x (by simp))]
      simp [strMk_data]
    | cons y ys =>
      have hje : pyJoin (", ") (x :: y :: ys) = x ++ ", " ++ pyJoin (", ") (y :: ys) := rfl
      have hdata : (x ++ ", " ++ pyJoin (", ") (y :: ys)).data
          = x.data ++ ',' :: ' ' :: (pyJoin (", ") (y :: ys)).data := by
        rw [strData_append, strData_append]
        simp
      unfold splitTypeList
      rw [hje, hdata, splitCS_append (pyJoin (", ") (y :: ys)).data x.data []
        (hcf x (by simp))]
      have hih := ih (by simp) (fun t ht => hcf t (List.mem_cons_of_mem _ ht))
      unfold splitTypeList at hih
      simp only [List.map_cons, List.reverse_nil, List.nil_append, strMk_data]
      rw [hih]

/-- C8: the generated `actions.ts` opens with the shared request helper
and error base imported from the root `api.ts` path, followed by a
type-only import from the local `./models` that lists exactly the
converter's required types — splitting the emitted `", "`-joined list
recovers precisely `requiredTypes`, no more and no fewer. -/
theorem c8_action_imports_exact (conv : ActionConverterOutput) (rootApiImportPath : String)
    (hne : conv.requiredTypes ≠ [])
    (hcf : ∀ t ∈ conv.requiredTypes, ',' ∉ t.data) :
    (∃ rest, generateActionsContent conv rootApiImportPath =
        actionsImportChunk conv.requiredTypes rootApiImportPath ++ rest)
    ∧ actionsImportChunk conv.requiredTypes rootApiImportPath =
        "import \x7b __request, FetchErrorBase \x7d from '" ++ rootApiImportPath ++ "';\n"
          ++ "import type \x7b " ++ pyJoin (", ") conv.requiredTypes
          ++ " \x7d from './models';"
    ∧ splitTypeList (pyJoin (", ") conv.requiredTypes) = conv.requiredTypes := by
  refine ⟨?_, rfl, splitTypeList_pyJoin conv.requiredTypes hne hcf⟩
  unfold generateActionsContent
  cases conv.outputSchemas.map (fun kv => kv.2) with
  | nil =>
    refine ⟨"", ?_⟩
    simp only [pyJoin]
    exact (strAppend_empty _).symm
  | cons s ss =>
    refine ⟨"\n\n" ++ pyJoin ("\n\n") (s :: ss), ?_⟩
    simp only [pyJoin]
    exact strAppend_assoc _ _ _

/-- Witness for C8: a converter output requiring two named types; the
emitted import list splits back into exactly those two types. -/
theorem c8_action_imports_exact_witness :
    (∃ rest, generateActionsContent
        ⟨[("do_thing", "export const do_thing = stub")], ["HomeRender", "ActionResponse"]⟩
        "../../_server/api" =
        actionsImportChunk ["HomeRender", "ActionResponse"] "../../_server/api" ++ rest)
    ∧ actionsImportChunk ["HomeRender", "ActionResponse"] "../../_server/api" =
        "import \x7b __request, FetchErrorBase \x7d from '" ++ "../../_server/api" ++ "';\n"
          ++ "import type \x7b " ++ pyJoin (", ") ["HomeRender", "ActionResponse"]
          ++ " \x7d from './models';"
    ∧ splitTypeList (pyJoin (", ") ["HomeRender", "ActionResponse"])
        = ["HomeRender", "ActionResponse"] := by
  exact c8_action_imports_exact
    ⟨[("do_thing", "export const do_thing = stub")], ["HomeRender", "ActionResponse"]⟩
    "../../_server/api" (by decide) (by decide)

/-! ### C4: content-addressed artifact names -/

theorem char_toNat_lt (c : Char) : c.toNat < 16777216 := by
  have h : c.val.toNat < 0xd800 ∨ (0xe000 ≤ c.val.toNat ∧ c.val.toNat < 0x110000) := c.valid
  have : Char.toNat c = c.val.toNat := rfl
  rw [this]
  omega

theorem hexVal_hexDigit (n : Nat) (h : n < 16) : hexValOfChar (hexDigitChar n) = n := by
  interval_cases n <;> rfl

theorem hexDigit_ne_semicolon (n : Nat) (h : n < 16) : hexDigitChar n ≠ ';' := by
  interval_cases n <;> decide

theorem strExt (a b : String) (h : a.data = b.data) : a = b := by
  cases a
  cases b
  exact congrArg String.mk h

theorem decStrHex_semicolon (rest : List Char) :
    decStrHex (';' :: rest) = some ([], rest) := by
  match rest with
  | [] => rfl
  | [a] => rfl
  | [a, b] => rfl
  | [a, b, c] => rfl
  | [a, b, c, d] => rfl
  | [a, b, c, d, e] => rfl
  | a :: b :: c :: d :: e :: f :: r => simp [decStrHex]

theorem decStrHex_round : ∀ (s : List Char) (rest : List Char),
    decStrHex (encStrHex s ++ ';' :: rest) = some (s, rest) := by
  intro s
  induction s with
  | nil =>
    intro rest
    simp only [encStrHex, List.nil_append]
    exact decStrHex_semicolon rest
  | cons c cs ih =>
    intro rest
    have hb : c.toNat < 16777216 := char_toNat_lt c
    have h1 : c.toNat / 1048576 < 16 := by omega
    have h2 : c.toNat / 65536 % 16 < 16 := Nat.mod_lt _ (by norm_num)
    have h3 : c.toNat / 4096 % 16 < 16 := Nat.mod_lt _ (by norm_num)
    have h4 : c.toNat / 256 % 16 < 16 := Nat.mod_lt _ (by norm_num)
    have h5 : c.toNat / 16 % 16 < 16 := Nat.mod_lt _ (by norm_num)
    have h6 : c.toNat % 16 < 16 := Nat.mod_lt _ (by norm_num)
    have harith : (((((c.toNat / 1048576) * 16 + c.toNat / 65536 % 16) * 16
        + c.toNat / 4096 % 16) * 16 + c.toNat / 256 % 16) * 16
        + c.toNat / 16 % 16) * 16 + c.toNat % 16 = c.toNat := by omega
    have hdec : decodedChar (hexDigitChar (c.toNat / 1048576))
        (hexDigitChar (c.toNat / 65536 % 16)) (hexDigitChar (c.toNat / 4096 % 16))
        (hexDigitChar (c.toNat / 256 % 16)) (hexDigitChar (c.toNat / 16 % 16))
        (hexDigitChar (c.toNat % 16)) = c := by
      simp only [decodedChar, hexVal_hexDigit _ h1, hexVal_hexDigit _ h2,
        hexVal_hexDigit _ h3, hexVal_hexDigit _ h4, hexVal_hexDigit _ h5,
        hexVal_hexDigit _ h6]
      rw [harith, Char.ofNat_toNat]
    simp only [encStrHex, encCharHex, List.cons_append, List.nil_append]
    simp only [decStrHex, if_neg (hexDigit_ne_semicolon _ h1)]
    rw [ih rest, hdec]

theorem digestChars_inj : ∀ l1 l2 : List JsLine, digestChars l1 = digestChars l2 → l1 = l2 := by
  intro l1
  induction l1 with
  | nil =>
    intro l2 h
    cases l2 with
    | nil => rfl
    | cons y ys => cases y <;> simp [digestChars] at h
  | cons x xs ih =>
    intro l2 h
    cases l2 with
    | nil => cases x <;> simp [digestChars] at h
    | cons y ys =>
      cases x with
      | codeLine s =>
        cases y with
        | codeLine t =>
          simp only [digestChars, List.cons.injEq] at h
          have hd := congrArg decStrHex h.2
          rw [decStrHex_round, decStrHex_round] at hd
          simp only [Option.some.injEq, Prod.mk.injEq] at hd
          have hst : s = t := strExt s t hd.1
          rw [hst, ih ys hd.2]
        | sourceMapRef t => simp [digestChars] at h
      | sourceMapRef s =>
        cases y with
        | codeLine t => simp [digestChars] at h
        | sourceMapRef t =>
          simp only [digestChars, List.cons.injEq] at h
          have hd := congrArg decStrHex h.2
          rw [decStrHex_round, decStrHex_round] at hd
          simp only [Option.some.injEq, Prod.mk.injEq] at hd
          have hst : s = t := strExt s t hd.1
          rw [hst, ih ys hd.2]

theorem md5HexModel_inj (l1 l2 : List JsLine) (h : md5HexModel l1 = md5HexModel l2) :
    l1 = l2 := by
  unfold md5HexModel at h
  have hd := congrArg String.data h
  exact digestChars_inj l1 l2 hd

theorem strAppend_cancel_left (a b c : String) (h : a ++ b = a ++ c) : b = c := by
  have hd := congrArg String.data h
  rw [strData_append, strData_append] at hd
  exact strExt b c (List.append_cancel_left hd)

theorem strAppend_cancel_right (a b c : String) (h : a ++ c = b ++ c) : a = b := by
  have hd := congrArg String.data h
  rw [strData_append, strData_append] at hd
  exact strExt a b (List.append_cancel_right hd)

/-- C4: the content hash is taken over the bundled script with the
source-map reference stripped first; the script filename is
`{underscore(class_name)}-{hash}.js` with the paired `{filename}.map`;
rewriting the source-map reference leaves the cleaned contents (hence
the hash and the filename) unchanged; two builds with identical cleaned
script logic give identical filenames; and builds whose cleaned script
contents differ give different filenames. -/
theorem c4_content_addressed_filenames (c : Controller)
    (contents contents1 contents2 : List JsLine)
    (mapContents m1 m2 newMap : String) :
    ((spawnBuilderArtifact c contents mapContents).scriptName
        = underscore c.className ++ "-" ++ md5HexModel (getCleanedJsContents contents) ++ ".js")
    ∧ ((spawnBuilderArtifact c contents mapContents).mapName
        = (spawnBuilderArtifact c contents mapContents).scriptName ++ ".map")
    ∧ (getCleanedJsContents (updateSourceMapPath contents newMap) = getCleanedJsContents contents)
    ∧ (getCleanedJsContents contents1 = getCleanedJsContents contents2 →
        (spawnBuilderArtifact c contents1 m1).scriptName
          = (spawnBuilderArtifact c contents2 m2).scriptName)
    ∧ (getCleanedJsContents contents1 ≠ getCleanedJsContents contents2 →
        (spawnBuilderArtifact c contents1 m1).scriptName
          ≠ (spawnBuilderArtifact c contents2 m2).scriptName) := by
  refine ⟨rfl, rfl, ?_, ?_, ?_⟩
  · unfold updateSourceMapPath getCleanedJsContents
    rw [List.filter_append]
    simp [List.filter_filter]
  · intro h
    simp only [spawnBuilderArtifact, h]
  · intro hne heq
    simp only [spawnBuilderArtifact] at heq
    have h1 := strAppend_cancel_right _ _ _ heq
    have h2 := strAppend_cancel_left _ _ _ h1
    exact hne (md5HexModel_inj _ _ h2)

/-- Witness for C4: scripts differing only in their source-map reference
get the same filename; a script with different code gets a different
filename; rewriting the reference preserves the cleaned contents. -/
theorem c4_content_addressed_filenames_witness :
    (spawnBuilderArtifact homeController
        [JsLine.codeLine "render()", JsLine.sourceMapRef "old.map"] "m1").scriptName
      = (spawnBuilderArtifact homeController
        [JsLine.codeLine "render()", JsLine.sourceMapRef "other.map"] "m2").scriptName
    ∧ (spawnBuilderArtifact homeController
        [JsLine.codeLine "render()", JsLine.sourceMapRef "old.map"] "m1").scriptName
      ≠ (spawnBuilderArtifact homeController [JsLine.codeLine "render2()"] "m3").scriptName
    ∧ getCleanedJsContents
        (updateSourceMapPath [JsLine.codeLine "render()", JsLine.sourceMapRef "old.map"] "new.map")
      = getCleanedJsContents [JsLine.codeLine "render()", JsLine.sourceMapRef "old.map"] := by
  refine ⟨?_, ?_, ?_⟩
  · exact (c4_content_addressed_filenames homeController
      [JsLine.codeLine "render()", JsLine.sourceMapRef "old.map"]
      [JsLine.codeLine "render()", JsLine.sourceMapRef "old.map"]
      [JsLine.codeLine "render()", JsLine.sourceMapRef "other.map"]
      "m1" "m1" "m2" "unused").2.2.2.1 (by decide)
  · exact (c4_content_addressed_filenames homeController
      [JsLine.codeLine "render()", JsLine.sourceMapRef "old.map"]
      [JsLine.codeLine "render()", JsLine.sourceMapRef "old.map"]
      [JsLine.codeLine "render2()"]
      "m1" "m1" "m3" "unused").2.2.2.2 (by decide)
  · exact (c4_content_addressed_filenames homeController
      [JsLine.codeLine "render()", JsLine.sourceMapRef "old.map"]
      [JsLine.codeLine "render()", JsLine.sourceMapRef "old.map"]
      [JsLine.codeLine "render()", JsLine.sourceMapRef "other.map"]
      "m1" "m1" "m2" "new.map").2.2.1
